import Mathlib

/-!
Shallow embedding of the discovery-health-routing gateway of
`local_proxy_client.py` (the same code is duplicated verbatim in
`clients/local_proxy_client.py` with `Service` named `AIService`).
Machine integers are modelled as `Nat` (Python ints are unbounded; SRV
priorities and HTTP status codes are small non-negative ints), timestamps as
`Nat` ticks, and every fallible Python path as `Except`/`Option`.
-/

namespace ZeroconfAI

/-- The `Service` dataclass: a discovered backend's identity, network
location, advertised priority and derived health/model state. -/
structure Service where
  name : String
  address : String
  port : Nat
  priority : Nat
  lastSeen : Nat
  isHealthy : Bool
  availableModels : List String
  firstCheckComplete : Bool
deriving DecidableEq, Repr

/-- Object references: Python object identity made explicit so that the
sharing behaviour of `get_all_services` can be stated. -/
abbrev Ref := Nat

/-- Association-list lookup, the embedding of Python dict lookup
(`d.get(k)` / `k in d`). First binding of the key wins. -/
def lookupKey {β : Type} (k : String) : List (String × β) → Option β
  | [] => none
  | p :: ps => if p.1 = k then some p.2 else lookupKey k ps

/-- Association-list lookup keyed by object reference. -/
def lookupRef {β : Type} (k : Ref) : List (Ref × β) → Option β
  | [] => none
  | p :: ps => if p.1 = k then some p.2 else lookupRef k ps

/-- The state owned by `ServiceDiscovery`: `store` is the object heap
(object id maps to the `Service` record held there), `dict` is the
insertion-ordered `self.services` dict (name maps to object id), and
`next` is the next fresh object id. Keeping the heap explicit captures
that Python dict values are object references, not copies. -/
structure Registry where
  store : List (Ref × Service)
  dict : List (String × Ref)
  next : Ref
deriving DecidableEq, Repr

/-- Dereference an object id in the registry's heap. -/
def readRef (reg : Registry) (r : Ref) : Option Service :=
  lookupRef r reg.store

/-- Mutate the record object `r` in place (`service.field = ...` through a
reference): every holder of `r` observes the new value. -/
def writeRef (reg : Registry) (r : Ref) (s : Service) : Registry :=
  { reg with store := reg.store.map (fun p => if p.1 = r then (r, s) else p) }

/-- `ServiceDiscovery.get_all_services`: `list(self.services.values())` —
a fresh list object whose elements are the stored record objects
themselves (shared references, not copies), in dict insertion order. -/
def get_all_services (reg : Registry) : List Ref :=
  reg.dict.map (fun p => p.2)

/-- `ServiceDiscovery.get_service`: `self.services.get(name)`. -/
def get_service (reg : Registry) (name : String) : Option Service :=
  (lookupKey name reg.dict).bind (readRef reg)

/-- `self.services[name] = svc`: allocate a fresh record object and bind
`name` to it. An existing key keeps its dict position (Python dict update
semantics); a new key is appended in insertion order. -/
def upsert (reg : Registry) (name : String) (svc : Service) : Registry :=
  let r := reg.next
  let store := reg.store ++ [(r, svc)]
  let dict :=
    if (lookupKey name reg.dict).isSome then
      reg.dict.map (fun p => if p.1 = name then (name, r) else p)
    else reg.dict ++ [(name, r)]
  ⟨store, dict, r + 1⟩

/-- The fields of a resolved `zeroconf.ServiceInfo` that
`Listener.add_service` reads. `priority` is `Option Nat` so that an absent
SRV priority and an explicit `0` are both representable; Python only tests
it for truthiness, under which `none` and `some 0` behave identically. -/
structure ServiceInfo where
  addresses : List String
  port : Nat
  priority : Option Nat
deriving DecidableEq, Repr

/-- The value of `info.priority if info.priority else 50`: a falsy
(absent or zero) advertised priority is replaced by the default 50. -/
def resolvedPriority : Option Nat → Nat
  | none => 50
  | some 0 => 50
  | some (n + 1) => n + 1

/-- `Listener.add_service` (also `update_service`, which delegates to it).
`info` is `zc.get_service_info(type_, name)` (`none` when resolution
failed); `now` is the clock for the `last_seen` default. `Except` models
the Python control flow: `.error` is an uncaught exception escaping the
callback. The guard is `if info and info.port:`; past it, Python evaluates
`socket.inet_ntoa(info.addresses[0])`, which raises `IndexError` when the
resolved address list is empty. `inet_ntoa` itself is kept abstract (the
address strings are carried through unchanged). -/
def add_service (reg : Registry) (name : String) (info : Option ServiceInfo)
    (now : Nat) : Except String Registry :=
  match info with
  | none => .ok reg
  | some i =>
    if i.port ≠ 0 then
      match i.addresses with
      | [] => .error "IndexError: list index out of range"
      | a :: _ =>
        .ok (upsert reg name
          { name := name, address := a, port := i.port,
            priority := resolvedPriority i.priority,
            lastSeen := now, isHealthy := false, availableModels := [],
            firstCheckComplete := false })
    else .ok reg

/-- `Listener.remove_service`: delete the name's binding if present. -/
def remove_service (reg : Registry) (name : String) : Registry :=
  { reg with dict := reg.dict.filter (fun p => p.1 ≠ name) }

/-- What one `requests.get` probe call produced: a status code together
with the parsed model ids of the body (meaningful only for the model-list
fetch on a 200), or an exception (connection error, timeout, or a body
that fails to parse). -/
inductive HttpResult where
  | resp (status : Nat) (modelIds : List String)
  | exn
deriving DecidableEq, Repr

/-- `HealthMonitor._check_health`: `status_code == 200`; any exception
yields `False`. -/
def check_health : HttpResult → Bool
  | .resp status _ => status == 200
  | .exn => false

/-- `HealthMonitor._fetch_models`: the parsed ids on a 200; `[]` on any
other status and on any exception. -/
def fetch_models : HttpResult → List String
  | .resp status ids => if status == 200 then ids else []
  | .exn => []

/-- One iteration of the `for service in services:` body of
`HealthMonitor._monitor_loop`, acting on a single record: apply the
liveness probe result, refresh `available_models` only while healthy,
decide whether a transition event is logged (guarded by the record's
`first_check_complete` flag as it stood before this probe), then set the
flag. Returns the mutated record and whether a transition was reported. -/
def monitor_service (s : Service) (healthProbe modelsProbe : HttpResult)
    (now : Nat) : Service × Bool :=
  let wasHealthy := s.isHealthy
  let s1 := { s with isHealthy := check_health healthProbe, lastSeen := now }
  let s2 := if s1.isHealthy then { s1 with availableModels := fetch_models modelsProbe } else s1
  let event := s2.firstCheckComplete && (s2.isHealthy != wasHealthy)
  ({ s2 with firstCheckComplete := true }, event)

/-- One entry of the `all_models` payload of `ModelRouter.get_all_models`. -/
structure ModelEntry where
  id : String
  object : String
  owned_by : String
deriving DecidableEq, Repr

/-- `[s for s in services if s.is_healthy]`. -/
def healthy_services (services : List Service) : List Service :=
  services.filter (fun s => s.isHealthy)

/-- The inner `for model_id in service.available_models:` loop of
`get_all_models`: append an entry for each model id not seen before
(the `model_to_services` side table decides "seen before"; an id is in it
exactly when an entry for it was already appended). -/
def addModelsOf (svc : Service) (acc : List ModelEntry) : List ModelEntry :=
  svc.availableModels.foldl
    (fun acc mid =>
      if acc.any (fun e => e.id == mid) then acc
      else acc ++ [{ id := mid, object := "model", owned_by := svc.name }])
    acc

/-- `ModelRouter.get_all_models`: the `"models"` list of the returned
payload, deduplicated by model id across healthy services, each entry
owned by the first healthy service that advertises the id. (The
`model_to_services` table is built but never returned.) -/
def get_all_models (services : List Service) : List ModelEntry :=
  (healthy_services services).foldl (fun acc svc => addModelsOf svc acc) []

/-- The `GET /v1/models` endpoint (`get_models`): raises
`HTTPException(503)` when the router's payload has no models, otherwise
returns the payload. `.error` carries (status code, detail). -/
def get_models (services : List Service) : Except (Nat × String) (List ModelEntry) :=
  let models := get_all_models services
  if models = [] then
    .error (503, "No models available from any ZeroconfAI service")
  else .ok models

/-- `decoded_line.startswith('data: ')`: the line's first six characters
are `data: ` (stated over the character list so it evaluates). -/
def startsWithData (line : String) : Bool :=
  line.data.take 6 == "data: ".data

/-- One line of the backend stream through the `generate()` body of
`chat_completions`: an empty line is skipped (`if line:`), a line already
starting with `"data: "` is forwarded as-is plus the SSE frame terminator,
and any other non-empty line is wrapped in a `"data: "` frame. -/
def processLine (line : String) : Option String :=
  if line = "" then none
  else if startsWithData line then some (line ++ "\n\n")
  else some ("data: " ++ line ++ "\n\n")

/-- The `generate()` generator of the streaming branch of
`chat_completions`, run over the whole list of lines `iter_lines()`
yields from the backend response. -/
def generate (lines : List String) : List String :=
  lines.filterMap processLine

/-- What one forwarded POST to a candidate produced, as classified by the
`try`/`except` arms of `route_request`: success (a 2xx status and, for a
non-streaming call, a JSON body with a non-empty `"choices"` field),
`requests.Timeout`, a `ValueError` (unparseable JSON or missing/empty
`"choices"`), or any other exception (`HTTPError` from `raise_for_status`
on a non-2xx status, connection errors, ...). -/
inductive Outcome where
  | success (resp : String)
  | timeout
  | invalidFormat (msg : String)
  | failure (msg : String)
deriving DecidableEq, Repr

/-- Whether an attempt outcome takes the `return` path of the loop body. -/
def Outcome.isSuccess : Outcome → Bool
  | .success _ => true
  | _ => false

/-- The `last_error` string each `except` arm of `route_request` records
for a failed attempt against the named service; `none` for a success. -/
def failMessage (name : String) : Outcome → Option String
  | .success _ => none
  | .timeout => some ("Service " ++ name ++ " timed out")
  | .invalidFormat m => some ("Service " ++ name ++ " returned invalid format: " ++ m)
  | .failure m => some ("Service " ++ name ++ " failed: " ++ m)

/-- The `HTTPException`s `route_request` raises: 404 when no candidate
advertises the model, 502 when every attempted candidate failed. Each
carries its `detail` string. -/
inductive RouteError where
  | notFound (detail : String)
  | allFailed (detail : String)
deriving DecidableEq, Repr

/-- Python string interpolation of `last_error` into the 502 detail:
`None` renders as the literal string "None". -/
def renderErr : Option String → String
  | none => "None"
  | some e => e

/-- The candidate list of `route_request` (and `get_service_for_model`):
healthy services advertising the requested model, in snapshot order. -/
def candidates_for (services : List Service) (modelId : String) : List Service :=
  (healthy_services services).filter (fun s => s.availableModels.contains modelId)

/-- Insert a record into a priority-ascending list, before the first
record of priority not below its own. -/
def insertByPriority (s : Service) : List Service → List Service
  | [] => [s]
  | t :: ts => if s.priority ≤ t.priority then s :: t :: ts else t :: insertByPriority s ts

/-- `candidates.sort(key=lambda s: s.priority)`: a stable ascending sort
by `priority` (Python `list.sort` is stable), written as insertion sort. -/
def sortByPriority : List Service → List Service
  | [] => []
  | s :: ss => insertByPriority s (sortByPriority ss)

/-- The `for service in candidates[:max_retries]:` loop of
`route_request`, threading `last_error`. `oracle` gives the outcome of
the forwarded POST per service name. Besides the Python return value the
embedding also returns the list of candidates actually contacted, in
order, so that claims about which network calls are issued can be
stated. -/
def routeLoop (oracle : String → Outcome) (modelId : String) :
    List Service → Option String → Except RouteError String × List Service
  | [], lastError =>
    (.error (.allFailed ("All services failed for model \x27" ++ modelId ++
      "\x27. Last error: " ++ renderErr lastError)), [])
  | s :: rest, _lastError =>
    match oracle s.name with
    | .success r => (.ok r, [s])
    | o =>
      let out := routeLoop oracle modelId rest (failMessage s.name o)
      (out.1, s :: out.2)

/-- `ModelRouter.route_request`: filter the snapshot to healthy services
advertising the model, fail 404 (contacting nothing) when there are none,
else sort stably by priority and attempt the first `max_retries`
candidates in order. -/
def route_request (oracle : String → Outcome) (services : List Service)
    (modelId : String) (maxRetries : Nat) :
    Except RouteError String × List Service :=
  let candidates := candidates_for services modelId
  if candidates = [] then
    (.error (.notFound ("Model \x27" ++ modelId ++
      "\x27 not found in any available service")), [])
  else
    routeLoop oracle modelId ((sortByPriority candidates).take maxRetries) none

/-- Claim-side ordering: ascending priority, ties broken by a position
function (discovery order of the snapshot). -/
def priorityOrder (pos : Service → Nat) (a b : Service) : Prop :=
  a.priority < b.priority ∨ (a.priority = b.priority ∧ pos a < pos b)

/-- The value `last_error` holds after the loop has traversed `ts`,
starting from `le`: the recorded reason of the last traversed candidate,
or `le` when `ts` is empty. -/
def lastErrorAfter (oracle : String → Outcome) : List Service → Option String → Option String
  | [], le => le
  | s :: rest, _ => lastErrorAfter oracle rest (failMessage s.name (oracle s.name))

/-- Fixture: a healthy backend at priority 10 advertising "m1". -/
def svcA10 : Service :=
  ⟨"service-A", "10.0.0.1", 8001, 10, 0, true, ["m1"], true⟩

/-- Fixture: a healthy backend at priority 20 advertising "m1". -/
def svcB20 : Service :=
  ⟨"service-B", "10.0.0.2", 8002, 20, 0, true, ["m1"], true⟩

/-- Fixture: an unhealthy backend that still advertises "m1". -/
def svcUnhealthyM1 : Service :=
  ⟨"service-U", "10.0.0.3", 8003, 5, 0, false, ["m1"], true⟩

/-- Fixture: a healthy backend that does not advertise "m1". -/
def svcOtherModel : Service :=
  ⟨"service-O", "10.0.0.4", 8004, 5, 0, true, ["m2"], true⟩

/-- Fixture: a freshly discovered record (unhealthy, no models, first
probe not yet completed). -/
def svcFresh : Service :=
  ⟨"service-F", "10.0.0.9", 9000, 50, 0, false, [], false⟩

/-- Fixture: `svcFresh` after being marked healthy. -/
def svcFreshHealthy : Service :=
  ⟨"service-F", "10.0.0.9", 9000, 50, 0, true, [], false⟩

/-- Fixture: a one-record registry holding `svcFresh` at object id 0
under the name "service-F". -/
def regW : Registry :=
  ⟨[(0, svcFresh)], [("service-F", 0)], 1⟩

/-- Fixture: the empty registry. -/
def regEmpty : Registry :=
  ⟨[], [], 0⟩

/-- Fixture: a resolved advertisement whose SRV priority is 0. -/
def infoZeroPri : ServiceInfo :=
  ⟨["10.0.0.1"], 8000, some 0⟩

/-- Fixture backend behaviour: service-A answers HTTP 500, everything
else succeeds (the spec §8 scenario). -/
def oracleW : String → Outcome := fun n =>
  if n = "service-A" then .failure "500 Server Error" else .success "from-B"

/-- Fixture backend behaviour: every service fails. -/
def oracleFailW : String → Outcome := fun n =>
  if n = "service-A" then .failure "boom-A" else .failure "boom"

/-- Fixture discovery positions for the snapshot `[svcB20, svcA10]`. -/
def posW : Service → Nat := fun s => if s.name = "service-B" then 0 else 1

/-! ## Lemmas: the stable priority sort -/

theorem mem_insertByPriority {x s : Service} {t : List Service} :
    x ∈ insertByPriority s t ↔ x = s ∨ x ∈ t := by
  induction t with
  | nil => simp [insertByPriority]
  | cons t ts ih =>
    by_cases h : s.priority ≤ t.priority
    · simp [insertByPriority, h]
    · simp only [insertByPriority, if_neg h, List.mem_cons, ih]
      tauto

theorem perm_insertByPriority (s : Service) (t : List Service) :
    List.Perm (insertByPriority s t) (s :: t) := by
  induction t with
  | nil => exact List.Perm.refl _
  | cons t ts ih =>
    by_cases h : s.priority ≤ t.priority
    · rw [insertByPriority, if_pos h]
    · rw [insertByPriority, if_neg h]
      exact (ih.cons t).trans (List.Perm.swap s t ts)

theorem perm_sortByPriority (l : List Service) : List.Perm (sortByPriority l) l := by
  induction l with
  | nil => exact List.Perm.refl _
  | cons s ss ih =>
    exact (perm_insertByPriority s (sortByPriority ss)).trans (ih.cons s)

theorem priorityOrder_of_le_of_pos {pos : Service → Nat} {a b : Service}
    (hle : a.priority ≤ b.priority) (hpos : pos a < pos b) : priorityOrder pos a b := by
  rcases Nat.lt_or_ge a.priority b.priority with h | h
  · exact Or.inl h
  · exact Or.inr ⟨Nat.le_antisymm hle h, hpos⟩

theorem priorityOrder_le {pos : Service → Nat} {a b : Service}
    (h : priorityOrder pos a b) : a.priority ≤ b.priority := by
  rcases h with h | ⟨h, _⟩
  · exact Nat.le_of_lt h
  · exact Nat.le_of_eq h

theorem pairwise_insertByPriority {pos : Service → Nat} {s : Service} {t : List Service}
    (hp : t.Pairwise (priorityOrder pos)) (hpos : ∀ x ∈ t, pos s < pos x) :
    (insertByPriority s t).Pairwise (priorityOrder pos) := by
  induction t with
  | nil => simp [insertByPriority, priorityOrder]
  | cons t ts ih =>
    rw [List.pairwise_cons] at hp
    obtain ⟨hhead, htail⟩ := hp
    by_cases h : s.priority ≤ t.priority
    · rw [insertByPriority, if_pos h]
      refine List.Pairwise.cons ?_ (List.Pairwise.cons hhead htail)
      intro x hx
      rcases List.mem_cons.mp hx with rfl | hx
      · exact priorityOrder_of_le_of_pos h (hpos _ (List.mem_cons_self ..))
      · exact priorityOrder_of_le_of_pos
          (Nat.le_trans h (priorityOrder_le (hhead x hx)))
          (hpos _ (List.mem_cons_of_mem _ hx))
    · rw [insertByPriority, if_neg h]
      refine List.Pairwise.cons ?_ (ih htail (fun x hx => hpos _ (List.mem_cons_of_mem _ hx)))
      intro y hy
      rcases mem_insertByPriority.mp hy with rfl | hy
      · exact Or.inl (Nat.lt_of_not_le h)
      · exact hhead y hy

theorem pairwise_sortByPriority {pos : Service → Nat} {l : List Service}
    (h : l.Pairwise (fun a b => pos a < pos b)) :
    (sortByPriority l).Pairwise (priorityOrder pos) := by
  induction l with
  | nil => simp [sortByPriority]
  | cons s ss ih =>
    rw [List.pairwise_cons] at h
    refine pairwise_insertByPriority (ih h.2) ?_
    intro x hx
    exact h.1 x ((perm_sortByPriority ss).mem_iff.mp hx)

/-! ## Lemmas: the retry loop of `route_request` -/

theorem Outcome.isSuccess_eq_false {o : Outcome} (h : ¬ ∃ r, o = .success r) :
    o.isSuccess = false := by
  cases o with
  | success r => exact absurd ⟨r, rfl⟩ h
  | timeout => rfl
  | invalidFormat m => rfl
  | failure m => rfl

theorem routeLoop_cons_success {oracle : String → Outcome} {s : Service} {r : String}
    (h : oracle s.name = .success r) (modelId : String) (rest : List Service)
    (le : Option String) :
    routeLoop oracle modelId (s :: rest) le = (.ok r, [s]) := by
  simp [routeLoop, h]

theorem routeLoop_cons_fail {oracle : String → Outcome} {s : Service}
    (h : (oracle s.name).isSuccess = false) (modelId : String) (rest : List Service)
    (le : Option String) :
    routeLoop oracle modelId (s :: rest) le =
      ((routeLoop oracle modelId rest (failMessage s.name (oracle s.name))).1,
       s :: (routeLoop oracle modelId rest (failMessage s.name (oracle s.name))).2) := by
  cases ho : oracle s.name with
  | success r => rw [ho] at h; simp [Outcome.isSuccess] at h
  | timeout => simp [routeLoop, ho]
  | invalidFormat m => simp [routeLoop, ho]
  | failure m => simp [routeLoop, ho]

theorem routeLoop_all_fail {oracle : String → Outcome} {ts : List Service}
    (hall : ∀ s ∈ ts, (oracle s.name).isSuccess = false)
    (modelId : String) (le : Option String) :
    routeLoop oracle modelId ts le =
      (.error (.allFailed ("All services failed for model \x27" ++ modelId ++
        "\x27. Last error: " ++ renderErr (lastErrorAfter oracle ts le))), ts) := by
  induction ts generalizing le with
  | nil => simp [routeLoop, lastErrorAfter]
  | cons s rest ih =>
    have hs := hall s (List.mem_cons_self ..)
    rw [routeLoop_cons_fail hs, ih (fun x hx => hall x (List.mem_cons_of_mem _ hx))]
    simp [lastErrorAfter]

theorem routeLoop_first_success {oracle : String → Outcome} {a : List Service}
    {s : Service} {r : String}
    (ha : ∀ x ∈ a, (oracle x.name).isSuccess = false) (hs : oracle s.name = .success r)
    (modelId : String) (b : List Service) (le : Option String) :
    routeLoop oracle modelId (a ++ s :: b) le = (.ok r, a ++ [s]) := by
  induction a generalizing le with
  | nil => simpa using routeLoop_cons_success hs modelId b le
  | cons x xs ih =>
    have hx := ha x (List.mem_cons_self ..)
    rw [List.cons_append, routeLoop_cons_fail hx,
      ih (fun y hy => ha y (List.mem_cons_of_mem _ hy))]
    simp

theorem routeLoop_attempted_take (oracle : String → Outcome) (modelId : String)
    (ts : List Service) (le : Option String) :
    ∃ k, (routeLoop oracle modelId ts le).2 = ts.take k := by
  induction ts generalizing le with
  | nil => exact ⟨0, by simp [routeLoop]⟩
  | cons s rest ih =>
    by_cases hsucc : ∃ r, oracle s.name = .success r
    · obtain ⟨r, hr⟩ := hsucc
      exact ⟨1, by simp [routeLoop_cons_success hr]⟩
    · obtain ⟨k, hk⟩ := ih (failMessage s.name (oracle s.name))
      refine ⟨k + 1, ?_⟩
      rw [routeLoop_cons_fail (Outcome.isSuccess_eq_false hsucc)]
      simp [hk]

theorem head_mem_routeLoop_attempted (oracle : String → Outcome) (modelId : String)
    (s : Service) (rest : List Service) (le : Option String) :
    s ∈ (routeLoop oracle modelId (s :: rest) le).2 := by
  by_cases hsucc : ∃ r, oracle s.name = .success r
  · obtain ⟨r, hr⟩ := hsucc
    simp [routeLoop_cons_success hr]
  · rw [routeLoop_cons_fail (Outcome.isSuccess_eq_false hsucc)]
    exact List.mem_cons_self ..

theorem lastErrorAfter_getLast {oracle : String → Outcome} {s : Service} :
    ∀ (ts : List Service) (le : Option String), ts.getLast? = some s →
      lastErrorAfter oracle ts le = failMessage s.name (oracle s.name)
  | [], _, h => by simp at h
  | [x], _, h => by
    simp only [List.getLast?_singleton, Option.some_inj] at h
    subst h
    rfl
  | x :: y :: ys, le, h => by
    rw [List.getLast?_cons_cons] at h
    exact lastErrorAfter_getLast (y :: ys)
      (failMessage x.name (oracle x.name)) h

theorem failMessage_isSome {name : String} {o : Outcome} (h : o.isSuccess = false) :
    (failMessage name o).isSome = true := by
  cases o <;> simp_all [failMessage, Outcome.isSuccess]

/-! ## Lemmas: registry lookups -/

theorem lookupKey_mem_values {β : Type} {k : String} {v : β} {l : List (String × β)}
    (h : lookupKey k l = some v) : v ∈ l.map (fun p => p.2) := by
  induction l with
  | nil => simp [lookupKey] at h
  | cons p ps ih =>
    rw [lookupKey] at h
    by_cases hp : p.1 = k
    · rw [if_pos hp] at h
      injection h with h
      subst h
      simp
    · rw [if_neg hp] at h
      exact List.mem_cons_of_mem _ (ih h)

theorem lookupRef_write {k : Ref} {s' : Service} {store : List (Ref × Service)}
    (h : (lookupRef k store).isSome = true) :
    lookupRef k (store.map (fun p => if p.1 = k then (k, s') else p)) = some s' := by
  induction store with
  | nil => simp [lookupRef] at h
  | cons p ps ih =>
    by_cases hp : p.1 = k
    · rw [List.map_cons, if_pos hp, lookupRef, if_pos rfl]
    · rw [lookupRef, if_neg hp] at h
      rw [List.map_cons, if_neg hp, lookupRef, if_neg hp]
      exact ih h

theorem lookupRef_append_fresh {k : Ref} {v : Service} {store : List (Ref × Service)}
    (h : ∀ p ∈ store, p.1 ≠ k) : lookupRef k (store ++ [(k, v)]) = some v := by
  induction store with
  | nil => simp [lookupRef]
  | cons p ps ih =>
    rw [List.cons_append, lookupRef, if_neg (h p (List.mem_cons_self ..))]
    exact ih (fun q hq => h q (List.mem_cons_of_mem _ hq))

theorem lookupKey_append_of_none {β : Type} {k : String} {v : β} {l : List (String × β)}
    (h : lookupKey k l = none) : lookupKey k (l ++ [(k, v)]) = some v := by
  induction l with
  | nil => simp [lookupKey]
  | cons p ps ih =>
    rw [lookupKey] at h
    by_cases hp : p.1 = k
    · rw [if_pos hp] at h
      exact absurd h (by simp)
    · rw [if_neg hp] at h
      rw [List.cons_append, lookupKey, if_neg hp]
      exact ih h

theorem lookupKey_map_replace {k : String} {r : Ref} {dict : List (String × Ref)}
    (h : (lookupKey k dict).isSome = true) :
    lookupKey k (dict.map (fun p => if p.1 = k then (k, r) else p)) = some r := by
  induction dict with
  | nil => simp [lookupKey] at h
  | cons p ps ih =>
    by_cases hp : p.1 = k
    · rw [List.map_cons, if_pos hp, lookupKey, if_pos rfl]
    · rw [lookupKey, if_neg hp] at h
      rw [List.map_cons, if_neg hp, lookupKey, if_neg hp]
      exact ih h

theorem get_service_upsert (reg : Registry) (name : String) (svc : Service)
    (hwf : ∀ p ∈ reg.store, p.1 < reg.next) :
    get_service (upsert reg name svc) name = some svc := by
  have hfresh : ∀ p ∈ reg.store, p.1 ≠ reg.next :=
    fun p hp => Nat.ne_of_lt (hwf p hp)
  by_cases hk : (lookupKey name reg.dict).isSome = true
  · show (lookupKey name (upsert reg name svc).dict).bind _ = _
    rw [show (upsert reg name svc).dict =
        reg.dict.map (fun p => if p.1 = name then (name, reg.next) else p) by
      simp [upsert, hk]]
    rw [lookupKey_map_replace hk]
    show lookupRef reg.next (upsert reg name svc).store = some svc
    rw [show (upsert reg name svc).store = reg.store ++ [(reg.next, svc)] from rfl]
    exact lookupRef_append_fresh hfresh
  · have hnone : lookupKey name reg.dict = none := by
      cases h' : lookupKey name reg.dict with
      | none => rfl
      | some v => rw [h'] at hk; simp at hk
    show (lookupKey name (upsert reg name svc).dict).bind _ = _
    rw [show (upsert reg name svc).dict = reg.dict ++ [(name, reg.next)] by
      simp [upsert, hnone]]
    rw [lookupKey_append_of_none hnone]
    show lookupRef reg.next (upsert reg name svc).store = some svc
    rw [show (upsert reg name svc).store = reg.store ++ [(reg.next, svc)] from rfl]
    exact lookupRef_append_fresh hfresh

/-! ## Claim theorems -/

/-- C1: with at least one healthy service advertising the requested
model, `route_request` attempts candidates in ascending priority order
with ties broken by discovery order (stated for any position function
strictly increasing along the snapshot candidate list), contacts at most
`maxRetries` distinct candidates in that order, returns the first
successful response immediately without contacting later candidates,
and when the lowest-priority candidate fails with `maxRetries ≥ 2` the
next candidate in the sorted order is contacted before any failure is
reported. -/
theorem route_request_priority_failover
    (oracle : String → Outcome) (services : List Service) (modelId : String)
    (maxRetries : Nat) (pos : Service → Nat)
    (hpos : (candidates_for services modelId).Pairwise (fun a b => pos a < pos b))
    (hnd : ((candidates_for services modelId).map Service.name).Nodup)
    (hne : candidates_for services modelId ≠ []) :
    (sortByPriority (candidates_for services modelId)).Pairwise (priorityOrder pos) ∧
    (∃ k, k ≤ maxRetries ∧
      (route_request oracle services modelId maxRetries).2 =
        (sortByPriority (candidates_for services modelId)).take k) ∧
    ((route_request oracle services modelId maxRetries).2.map Service.name).Nodup ∧
    (∀ a s b,
      (sortByPriority (candidates_for services modelId)).take maxRetries = a ++ s :: b →
      (∀ x ∈ a, (oracle x.name).isSuccess = false) →
      ∀ r, oracle s.name = .success r →
        (route_request oracle services modelId maxRetries).1 = .ok r ∧
        (route_request oracle services modelId maxRetries).2 = a ++ [s]) ∧
    (∀ s₀ s₁ rest,
      sortByPriority (candidates_for services modelId) = s₀ :: s₁ :: rest →
      2 ≤ maxRetries → (oracle s₀.name).isSuccess = false →
      s₀ ∈ (route_request oracle services modelId maxRetries).2 ∧
      s₁ ∈ (route_request oracle services modelId maxRetries).2) := by
  have hroute : route_request oracle services modelId maxRetries =
      routeLoop oracle modelId
        ((sortByPriority (candidates_for services modelId)).take maxRetries) none := by
    simp only [route_request]
    rw [if_neg hne]
  refine ⟨pairwise_sortByPriority hpos, ?_, ?_, ?_, ?_⟩
  · obtain ⟨k, hk⟩ := routeLoop_attempted_take oracle modelId
      ((sortByPriority (candidates_for services modelId)).take maxRetries) none
    exact ⟨min k maxRetries, Nat.min_le_right .., by rw [hroute, hk, List.take_take]⟩
  · obtain ⟨k, hk⟩ := routeLoop_attempted_take oracle modelId
      ((sortByPriority (candidates_for services modelId)).take maxRetries) none
    have hnds : ((sortByPriority (candidates_for services modelId)).map Service.name).Nodup :=
      (((perm_sortByPriority (candidates_for services modelId)).map Service.name).nodup_iff).mpr
        hnd
    rw [hroute, hk, List.take_take, List.map_take]
    exact List.Nodup.sublist (List.take_sublist ..) hnds
  · intro a s b hdecomp hafail r hs
    rw [hroute, hdecomp, routeLoop_first_success hafail hs]
    exact ⟨rfl, rfl⟩
  · intro s₀ s₁ rest hsorted hmr hfail
    obtain ⟨n, hn⟩ : ∃ n, maxRetries = n + 2 := ⟨maxRetries - 2, by omega⟩
    have htries : (sortByPriority (candidates_for services modelId)).take maxRetries
        = s₀ :: s₁ :: rest.take n := by
      rw [hsorted, hn]
      rfl
    rw [hroute, htries, routeLoop_cons_fail hfail]
    exact ⟨List.mem_cons_self ..,
      List.mem_cons_of_mem _ (head_mem_routeLoop_attempted ..)⟩

/-- C1 witness: the spec §8 scenario — A (priority 10) and B (priority
20) both healthy with "m1", A answers HTTP 500: A is attempted first and
B's successful response is returned. -/
theorem route_request_priority_failover_witness :
    (route_request oracleW [svcB20, svcA10] "m1" 2).1 = .ok "from-B" ∧
    (route_request oracleW [svcB20, svcA10] "m1" 2).2 = [svcA10] ++ [svcB20] := by
  have h := (route_request_priority_failover oracleW [svcB20, svcA10] "m1" 2 posW
    (by decide) (by decide) (by decide)).2.2.2.1
  exact h [svcA10] svcB20 [] (by decide) (by decide) "from-B" (by decide)

/-- C2: when zero healthy services advertise the requested model,
`route_request` fails immediately with the 404 "model not found"
condition and contacts no backend (the attempted list is empty). -/
theorem route_request_not_found (oracle : String → Outcome) (services : List Service)
    (modelId : String) (maxRetries : Nat)
    (h : candidates_for services modelId = []) :
    route_request oracle services modelId maxRetries =
      (.error (.notFound ("Model \x27" ++ modelId ++
        "\x27 not found in any available service")), []) := by
  simp [route_request, h]

/-- C2 witness: an unhealthy service advertising "m1" and a healthy
service advertising only "m2" yield the 404 and zero backend calls. -/
theorem route_request_not_found_witness :
    route_request oracleW [svcUnhealthyM1, svcOtherModel] "m1" 2 =
      (.error (.notFound ("Model \x27" ++ "m1" ++
        "\x27 not found in any available service")), []) :=
  route_request_not_found oracleW [svcUnhealthyM1, svcOtherModel] "m1" 2 (by decide)

/-- C3 counterexample: with an empty registry, `GET /v1/models` does not
return a successful `{"models": []}` — the endpoint rejects the request
with a 503 error. -/
theorem get_models_empty_registry_rejects :
    get_models ([] : List Service) =
      .error (503, "No models available from any ZeroconfAI service") ∧
    get_models ([] : List Service) ≠ .ok ([] : List ModelEntry) :=
  ⟨rfl, fun h => nomatch h⟩

/-- C3 amended: with an empty registry the router payload is the empty
model list, but the `GET /v1/models` endpoint turns it into an
`HTTPException(503, "No models available from any ZeroconfAI service")`
rather than a successful empty response. -/
theorem get_models_empty_registry :
    get_all_models ([] : List Service) = [] ∧
    get_models ([] : List Service) =
      .error (503, "No models available from any ZeroconfAI service") :=
  ⟨rfl, rfl⟩

/-- C5: when every attempted candidate fails, each failed attempt has a
recorded reason, and `route_request` returns the 502 aggregate failure
whose detail carries the reason recorded for the last attempted
candidate, having contacted exactly the first `maxRetries` sorted
candidates. -/
theorem route_request_all_failed (oracle : String → Outcome) (services : List Service)
    (modelId : String) (maxRetries : Nat) (s : Service)
    (hne : candidates_for services modelId ≠ [])
    (hall : ∀ x ∈ (sortByPriority (candidates_for services modelId)).take maxRetries,
      (oracle x.name).isSuccess = false)
    (hlast : ((sortByPriority (candidates_for services modelId)).take maxRetries).getLast?
      = some s) :
    (∀ x ∈ (sortByPriority (candidates_for services modelId)).take maxRetries,
      (failMessage x.name (oracle x.name)).isSome = true) ∧
    route_request oracle services modelId maxRetries =
      (.error (.allFailed ("All services failed for model \x27" ++ modelId ++
        "\x27. Last error: " ++ renderErr (failMessage s.name (oracle s.name)))),
       (sortByPriority (candidates_for services modelId)).take maxRetries) := by
  constructor
  · exact fun x hx => failMessage_isSome (hall x hx)
  · have hroute : route_request oracle services modelId maxRetries =
        routeLoop oracle modelId
          ((sortByPriority (candidates_for services modelId)).take maxRetries) none := by
      simp only [route_request]
      rw [if_neg hne]
    rw [hroute, routeLoop_all_fail hall modelId none,
      lastErrorAfter_getLast _ none hlast]

/-- C5 witness: both candidates fail; the 502 detail carries service-B's
(the last attempted candidate's) error message. -/
theorem route_request_all_failed_witness :
    route_request oracleFailW [svcB20, svcA10] "m1" 2 =
      (.error (.allFailed ("All services failed for model \x27" ++ "m1" ++
        "\x27. Last error: " ++
        renderErr (failMessage svcB20.name (oracleFailW svcB20.name)))),
       (sortByPriority (candidates_for [svcB20, svcA10] "m1")).take 2) :=
  (route_request_all_failed oracleFailW [svcB20, svcA10] "m1" 2 svcB20
    (by decide) (by decide) (by decide)).2

/-- C6: the health monitor reports a transition event exactly when the
record's `first_check_complete` flag was already set before the probe
result was applied and the probed health differs from the previous
health; in particular the very first completed probe of a record never
emits an event, and after any completed probe the flag is set. -/
theorem monitor_transition_guard (s : Service) (hp mp : HttpResult) (now : Nat) :
    (monitor_service s hp mp now).2
      = (s.firstCheckComplete && (check_health hp != s.isHealthy)) ∧
    (s.firstCheckComplete = false → (monitor_service s hp mp now).2 = false) ∧
    (monitor_service s hp mp now).1.firstCheckComplete = true := by
  refine ⟨?_, ?_, ?_⟩
  · cases hb : check_health hp <;> simp [monitor_service, hb]
  · intro h
    cases hb : check_health hp <;> simp [monitor_service, hb, h]
  · cases hb : check_health hp <;> simp [monitor_service, hb]

/-- C6 witness: a freshly discovered record that comes up healthy on its
first probe (an actual health change) emits no transition event, and its
flag is set afterwards. -/
theorem monitor_transition_guard_witness :
    (monitor_service svcFresh (.resp 200 []) (.resp 200 ["m1"]) 5).2 = false ∧
    (monitor_service svcFresh (.resp 200 []) (.resp 200 ["m1"]) 5).1.firstCheckComplete
      = true :=
  ⟨(monitor_transition_guard svcFresh (.resp 200 []) (.resp 200 ["m1"]) 5).2.1 rfl,
   (monitor_transition_guard svcFresh (.resp 200 []) (.resp 200 ["m1"]) 5).2.2⟩

/-- C7 counterexample: the malformed chunk "hello" (non-empty, no
"data: " framing) is not skipped — it is forwarded to the caller,
wrapped in a "data: " frame. -/
theorem malformed_chunk_forwarded :
    generate ["hello"] = ["data: hello\n\n"] ∧ generate ["hello"] ≠ [] :=
  ⟨by decide, by decide⟩

/-- C7 amended: well-formed chunks are forwarded in order with their
boundaries preserved (each line becomes one SSE frame); empty lines are
skipped; a malformed non-empty chunk is not skipped — it is forwarded
wrapped in a "data: " frame — and it does not abort the rest of the
stream. -/
theorem stream_passthrough :
    (∀ lines : List String, (∀ l ∈ lines, l ≠ "" → startsWithData l = true) →
      generate lines = (lines.filter (fun l => l != "")).map (fun l => l ++ "\n\n")) ∧
    (∀ rest : List String, generate ("" :: rest) = generate rest) ∧
    (∀ (l : String) (rest : List String), l ≠ "" → startsWithData l = false →
      generate (l :: rest) = ("data: " ++ l ++ "\n\n") :: generate rest) := by
  refine ⟨?_, fun rest => rfl, ?_⟩
  · intro lines hwf
    induction lines with
    | nil => rfl
    | cons l rest ih =>
      by_cases hl : l = ""
      · subst hl
        rw [show generate ("" :: rest) = generate rest from rfl,
          show ("" :: rest).filter (fun l => l != "") = rest.filter (fun l => l != "")
            from rfl]
        exact ih (fun x hx hne => hwf x (List.mem_cons_of_mem _ hx) hne)
      · have hw := hwf l (List.mem_cons_self ..) hl
        have h1 : processLine l = some (l ++ "\n\n") := by
          rw [processLine, if_neg hl, if_pos hw]
        have h2 : (l != "") = true := by simpa using hl
        rw [show generate (l :: rest) = (l ++ "\n\n") :: generate rest by
            simp [generate, List.filterMap_cons, h1],
          show (l :: rest).filter (fun l => l != "") = l :: rest.filter (fun l => l != "")
            by simp [List.filter_cons, h2],
          List.map_cons,
          ih (fun x hx hne => hwf x (List.mem_cons_of_mem _ hx) hne)]
  · intro l rest h1 h2
    have hp : processLine l = some ("data: " ++ l ++ "\n\n") := by
      rw [processLine, if_neg h1, if_neg (by simp [h2])]
    simp [generate, List.filterMap_cons, hp]

/-- C7 amended witness: a well-formed stream passes through preserved;
a malformed line "x" is forwarded wrapped and the stream continues. -/
theorem stream_passthrough_witness :
    generate ["data: a", ""] = (["data: a", ""].filter (fun l => l != "")).map
      (fun l => l ++ "\n\n") ∧
    generate ("x" :: ["data: b"]) = ("data: " ++ "x" ++ "\n\n") :: generate ["data: b"] :=
  ⟨stream_passthrough.1 ["data: a", ""] (by decide),
   stream_passthrough.2.2 "x" ["data: b"] (by decide) (by decide)⟩

/-- C10: during a probe cycle, if the liveness probe succeeds but the
model-list fetch fails (exception or non-200 status) the record's
`available_models` is set to the empty list, not left at its last known
value; it retains its previous value exactly when the liveness probe
itself fails. -/
theorem fetch_failure_clears_models (s : Service) (hp mp : HttpResult) (now : Nat) :
    (check_health hp = true →
      (mp = HttpResult.exn ∨ ∃ st ids, mp = HttpResult.resp st ids ∧ st ≠ 200) →
      (monitor_service s hp mp now).1.availableModels = []) ∧
    (check_health hp = false →
      (monitor_service s hp mp now).1.availableModels = s.availableModels) := by
  constructor
  · intro hh hfail
    have hm : fetch_models mp = [] := by
      rcases hfail with rfl | ⟨st, ids, rfl, hst⟩
      · rfl
      · simp [fetch_models, hst]
    simp [monitor_service, hh, hm]
  · intro hh
    simp [monitor_service, hh]

/-- C10 witness: a healthy probe with a 500 on the model fetch clears
the previously known models; an unhealthy probe leaves them in place. -/
theorem fetch_failure_clears_models_witness :
    (monitor_service svcA10 (.resp 200 []) (.resp 500 ["m9"]) 7).1.availableModels = [] ∧
    (monitor_service svcA10 .exn (.resp 200 ["m9"]) 7).1.availableModels
      = svcA10.availableModels :=
  ⟨(fetch_failure_clears_models svcA10 (.resp 200 []) (.resp 500 ["m9"]) 7).1 rfl
      (Or.inr ⟨500, ["m9"], rfl, by decide⟩),
   (fetch_failure_clears_models svcA10 .exn (.resp 200 ["m9"]) 7).2 rfl⟩

/-- C4 counterexample: `get_all_services` is not a deep copy — writing
through the record object id it returned (id 0) changes what the
registry's own `get_service` subsequently reports for that name. -/
theorem snapshot_not_deep_copy :
    get_all_services regW = [0] ∧
    get_service regW "service-F" = some svcFresh ∧
    get_service (writeRef regW 0 svcFreshHealthy) "service-F" = some svcFreshHealthy ∧
    svcFreshHealthy ≠ svcFresh :=
  ⟨rfl, rfl, rfl, by decide⟩

/-- C4 amended: the snapshot is a fresh list but a shallow copy: every
object id it contains is shared with the registry, so an in-place
mutation of a snapshotted record (exactly what the health monitor
performs) is observed by subsequent registry reads. -/
theorem snapshot_shares_record_objects (reg : Registry) (name : String) (r : Ref)
    (s' : Service) (h1 : lookupKey name reg.dict = some r)
    (h2 : (lookupRef r reg.store).isSome = true) :
    r ∈ get_all_services reg ∧
    get_service (writeRef reg r s') name = some s' := by
  constructor
  · exact lookupKey_mem_values h1
  · show (lookupKey name (writeRef reg r s').dict).bind _ = _
    rw [show (writeRef reg r s').dict = reg.dict from rfl, h1]
    exact lookupRef_write h2

/-- C4 amended witness: in the one-record registry, object id 0 is in
the snapshot and writing the healthy record through it is visible via
`get_service`. -/
theorem snapshot_shares_record_objects_witness :
    (0 : Ref) ∈ get_all_services regW ∧
    get_service (writeRef regW 0 svcFreshHealthy) "service-F" = some svcFreshHealthy :=
  snapshot_shares_record_objects regW "service-F" 0 svcFreshHealthy rfl rfl

/-- C8 counterexample: an advertisement that resolves with a non-zero
port but an empty address list is not silently ignored — the callback
raises `IndexError` at `info.addresses[0]`. -/
theorem add_service_empty_address_raises :
    add_service regEmpty "svc-x" (some ⟨[], 8000, some 10⟩) 0 =
      .error "IndexError: list index out of range" := rfl

/-- C8 amended: a failed resolution (no info) or a falsy port is
silently ignored leaving the registry unchanged, but a resolved
advertisement with an empty address list raises `IndexError` out of the
callback (while still creating or updating no record). -/
theorem add_service_malformed :
    (∀ (reg : Registry) (name : String) (now : Nat),
      add_service reg name none now = .ok reg) ∧
    (∀ (reg : Registry) (name : String) (i : ServiceInfo) (now : Nat), i.port = 0 →
      add_service reg name (some i) now = .ok reg) ∧
    (∀ (reg : Registry) (name : String) (i : ServiceInfo) (now : Nat),
      i.port ≠ 0 → i.addresses = [] →
      add_service reg name (some i) now = .error "IndexError: list index out of range") := by
  refine ⟨fun reg name now => rfl, ?_, ?_⟩
  · intro reg name i now h
    simp [add_service, h]
  · intro reg name i now hport haddr
    simp [add_service, hport, haddr]

/-- C8 amended witness: the three malformed-advertisement behaviours at
concrete inputs. -/
theorem add_service_malformed_witness :
    add_service regEmpty "s1" none 0 = .ok regEmpty ∧
    add_service regEmpty "s1" (some ⟨["10.0.0.1"], 0, some 10⟩) 0 = .ok regEmpty ∧
    add_service regEmpty "s1" (some ⟨[], 9000, some 10⟩) 0 =
      .error "IndexError: list index out of range" :=
  ⟨add_service_malformed.1 regEmpty "s1" 0,
   add_service_malformed.2.1 regEmpty "s1" ⟨["10.0.0.1"], 0, some 10⟩ 0 rfl,
   add_service_malformed.2.2 regEmpty "s1" ⟨[], 9000, some 10⟩ 0 (by decide) rfl⟩

/-- C9: on an add/update event that stores a record, a falsy (absent or
zero) advertised SRV priority is stored as the default 50, and any
non-zero advertised priority is stored unchanged. -/
theorem add_service_priority_default (reg : Registry) (name a : String)
    (rest : List String) (info : ServiceInfo) (now : Nat)
    (hwf : ∀ p ∈ reg.store, p.1 < reg.next)
    (haddr : info.addresses = a :: rest) (hport : info.port ≠ 0) :
    ∃ reg', add_service reg name (some info) now = .ok reg' ∧
      ∃ svc, get_service reg' name = some svc ∧
        ((info.priority = none ∨ info.priority = some 0) → svc.priority = 50) ∧
        (∀ p, info.priority = some p → p ≠ 0 → svc.priority = p) := by
  refine ⟨upsert reg name
      { name := name, address := a, port := info.port,
        priority := resolvedPriority info.priority,
        lastSeen := now, isHealthy := false, availableModels := [],
        firstCheckComplete := false }, ?_, ?_⟩
  · simp [add_service, hport, haddr]
  · refine ⟨_, get_service_upsert reg name _ hwf, ?_, ?_⟩
    · rintro (h | h) <;> simp [h, resolvedPriority]
    · intro p hp hne
      rw [hp]
      cases p with
      | zero => exact absurd rfl hne
      | succ n => rfl

/-- C9 witness: an advertised SRV priority of 0 is stored as 50. -/
theorem add_service_priority_default_witness :
    ∃ reg', add_service regEmpty "s1" (some infoZeroPri) 3 = .ok reg' ∧
      ∃ svc, get_service reg' "s1" = some svc ∧ svc.priority = 50 := by
  obtain ⟨reg', h1, svc, h2, h3, _⟩ :=
    add_service_priority_default regEmpty "s1" "10.0.0.1" [] infoZeroPri 3
      (by intro p hp; simp [regEmpty] at hp) rfl (by decide)
  exact ⟨reg', h1, svc, h2, h3 (Or.inr rfl)⟩

end ZeroconfAI
